import Mathlib

/-!
Verification of the student-course enrollment system.

The Python source is shallowly embedded:
* entities (`Student`, `Course`, `Enrollment`) become structures; Python
  `int` fields become `Int`, the floating-point `grade` becomes `ℚ`;
* the in-memory repositories become association lists (`Dict`) resp. plain
  lists; `dict[k] = v` becomes an upsert on the association list;
* `EnrollmentService` methods thread the repository state explicitly and
  return `Except ServiceError` in place of raised exceptions: a raise
  returns the state as it was at the raise point together with the error;
* the controller formats results into strings, with `f"{gpa:.2f}"` embedded
  as round-half-to-even fixed-point rendering on `ℚ`.
-/

/-- Key-value store modelling a Python `Dict[str, α]`: `find` is `dict.get`. -/
def findEntry (k : String) : List (String × α) → Option α
  | [] => none
  | (k', v) :: rest => if k' = k then some v else findEntry k rest

/-- Models `dict[k] = v`: replace the value at an existing key in place,
otherwise append the new binding at the end. -/
def upsert (l : List (String × α)) (k : String) (v : α) : List (String × α) :=
  match l with
  | [] => [(k, v)]
  | (k', v') :: rest => if k' = k then (k, v) :: rest else (k', v') :: upsert rest k v

/-- Embeds `src/model/student.py`: a student entity. `current_credits` starts at 0
in the Python constructor; here it is an explicit field so that arbitrary
repository states can be described. -/
structure Student where
  id : String
  name : String
  email : String
  current_credits : Int
  max_credits : Int
deriving DecidableEq

/-- Embeds `Student.__init__`: `current_credits` starts at 0. -/
def Student.create (id name email : String) (max_credits : Int) : Student :=
  { id := id, name := name, email := email, current_credits := 0,
    max_credits := max_credits }

/-- Embeds `Student.add_credits`: `self.current_credits += credits`. -/
def Student.add_credits (s : Student) (credits : Int) : Student :=
  { s with current_credits := s.current_credits + credits }

/-- Embeds `src/model/course.py`: a course entity. -/
structure Course where
  id : String
  name : String
  credits : Int
deriving DecidableEq

/-- Embeds `src/model/enrollment.py`: an enrollment record. -/
structure Enrollment where
  student_id : String
  course_id : String
  grade : ℚ
deriving DecidableEq

/-- Embeds `Enrollment.__init__(student_id, course_id)`: grade defaults to 0.0. -/
def Enrollment.create (student_id course_id : String) : Enrollment :=
  { student_id := student_id, course_id := course_id, grade := 0 }

/-- Embeds `Enrollment.set_grade`. -/
def Enrollment.set_grade (e : Enrollment) (grade : ℚ) : Enrollment :=
  { e with grade := grade }

/-- Embeds `src/repository/student_repository.py`: dict keyed by id. -/
structure StudentRepository where
  students : List (String × Student)
deriving DecidableEq

/-- Embeds `StudentRepository.save`: `self.students[student.id] = student`. -/
def StudentRepository.save (repo : StudentRepository) (student : Student) :
    StudentRepository :=
  ⟨upsert repo.students student.id student⟩

/-- Embeds `StudentRepository.find_by_id`: `self.students.get(id)`. -/
def StudentRepository.find_by_id (repo : StudentRepository) (id : String) :
    Option Student :=
  findEntry id repo.students

/-- Embeds `StudentRepository.find_all`: `list(self.students.values())`. -/
def StudentRepository.find_all (repo : StudentRepository) : List Student :=
  repo.students.map Prod.snd

/-- Embeds `src/repository/course_repository.py`: dict keyed by id. -/
structure CourseRepository where
  courses : List (String × Course)
deriving DecidableEq

/-- Embeds `CourseRepository.save`: `self.courses[course.id] = course`. -/
def CourseRepository.save (repo : CourseRepository) (course : Course) :
    CourseRepository :=
  ⟨upsert repo.courses course.id course⟩

/-- Embeds `CourseRepository.find_by_id`: `self.courses.get(id)`. -/
def CourseRepository.find_by_id (repo : CourseRepository) (id : String) :
    Option Course :=
  findEntry id repo.courses

/-- Embeds `CourseRepository.find_all`: `list(self.courses.values())`. -/
def CourseRepository.find_all (repo : CourseRepository) : List Course :=
  repo.courses.map Prod.snd

/-- Embeds `src/repository/enrollment_repository.py`: in-memory list. -/
structure EnrollmentRepository where
  enrollments : List Enrollment
deriving DecidableEq

/-- Embeds `EnrollmentRepository.save`: `self.enrollments.append(enrollment)`. -/
def EnrollmentRepository.save (repo : EnrollmentRepository) (enrollment : Enrollment) :
    EnrollmentRepository :=
  ⟨repo.enrollments ++ [enrollment]⟩

/-- Embeds `EnrollmentRepository.find_by_student_id`: list comprehension filter. -/
def EnrollmentRepository.find_by_student_id (repo : EnrollmentRepository)
    (student_id : String) : List Enrollment :=
  repo.enrollments.filter (fun e => e.student_id == student_id)

/-- Embeds `EnrollmentRepository.find_by_student_and_course`: first match or `None`. -/
def EnrollmentRepository.find_by_student_and_course (repo : EnrollmentRepository)
    (student_id course_id : String) : Option Enrollment :=
  repo.enrollments.find? (fun e => e.student_id == student_id && e.course_id == course_id)

/-- The three exceptions the service raises (§7 of the spec):
`ValueError` for the two not-found cases, `RuntimeError` for the limit. -/
inductive ServiceError where
  | studentNotFound (id : String)
  | courseNotFound (id : String)
  | creditLimitExceeded
deriving DecidableEq

/-- Embeds `str(e)` for each raised exception, from the f-strings in
`enrollment_service.py`. -/
def ServiceError.message : ServiceError → String
  | .studentNotFound id => "Student not found with ID: " ++ id
  | .courseNotFound id => "Course not found with ID: " ++ id
  | .creditLimitExceeded => "Student exceeds maximum credit limit"

/-- Embeds `src/service/enrollment_service.py`: holds the three repositories; this
structure is the mutable state the service methods act on. -/
structure EnrollmentService where
  student_repository : StudentRepository
  course_repository : CourseRepository
  enrollment_repository : EnrollmentRepository
deriving DecidableEq

/-- Embeds `EnrollmentService.enroll(student_id, course_id)`, line by line:
lookup student, lookup course, credit-limit check, then create the
enrollment, append it, add the credits and re-save the student. A raise
returns the state unchanged with the error. -/
def EnrollmentService.enroll (svc : EnrollmentService) (student_id course_id : String) :
    EnrollmentService × Except ServiceError Enrollment :=
  match svc.student_repository.find_by_id student_id with
  | none => (svc, .error (.studentNotFound student_id))
  | some student =>
    match svc.course_repository.find_by_id course_id with
    | none => (svc, .error (.courseNotFound course_id))
    | some course =>
      if student.current_credits + course.credits > student.max_credits then
        (svc, .error .creditLimitExceeded)
      else
        let enrollment := Enrollment.create student_id course_id
        let erepo := svc.enrollment_repository.save enrollment
        let updated := student.add_credits course.credits
        let srepo := svc.student_repository.save updated
        ({ svc with enrollment_repository := erepo, student_repository := srepo },
         .ok enrollment)

/-- The loop body of `calculate_gpa`: accumulate
`(total_points, total_credits)`, skipping enrollments whose course is
missing. -/
def gpaStep (svc : EnrollmentService) (acc : ℚ × Int) (e : Enrollment) : ℚ × Int :=
  match svc.course_repository.find_by_id e.course_id with
  | some course => (acc.1 + e.grade * (course.credits : ℚ), acc.2 + course.credits)
  | none => acc

/-- Embeds `EnrollmentService.calculate_gpa(student_id)`, line by line: lookup
student, fetch the enrollments, early 0.0 on the empty list, fold the
accumulation loop, and divide guarded by `total_credits > 0`. -/
def EnrollmentService.calculate_gpa (svc : EnrollmentService) (student_id : String) :
    EnrollmentService × Except ServiceError ℚ :=
  match svc.student_repository.find_by_id student_id with
  | none => (svc, .error (.studentNotFound student_id))
  | some _ =>
    let enrollments := svc.enrollment_repository.find_by_student_id student_id
    if enrollments.isEmpty then (svc, .ok 0)
    else
      let acc := enrollments.foldl (gpaStep svc) ((0 : ℚ), (0 : Int))
      (svc, .ok (if acc.2 > 0 then acc.1 / (acc.2 : ℚ) else 0))

/-- Round to the nearest integer, ties to even — the rounding of Python's
fixed-point float formatting. -/
def roundHalfEven (q : ℚ) : Int :=
  let lo := ⌊q⌋
  if q - (lo : ℚ) < 1 / 2 then lo
  else if q - (lo : ℚ) > 1 / 2 then lo + 1
  else if lo % 2 = 0 then lo else lo + 1

/-- Two-digit zero padding of the fractional part. -/
def padTwo (n : Nat) : String :=
  if n < 10 then "0" ++ toString n else toString n

/-- Embedding of `f"{q:.2f}"` on exact rationals. -/
def formatFixed2 (q : ℚ) : String :=
  let n := roundHalfEven (q * 100)
  let sign := if n < 0 then "-" else ""
  let a := n.natAbs
  sign ++ toString (a / 100) ++ "." ++ padTwo (a % 100)

/-- Embeds `src/controller/enrollment_controller.py`: wraps the service. -/
structure EnrollmentController where
  enrollment_service : EnrollmentService
deriving DecidableEq

/-- Embeds `EnrollmentController.enroll_student`: try/except around
`service.enroll`, producing a `SUCCESS:` or `ERROR:` string. -/
def EnrollmentController.enroll_student (ctrl : EnrollmentController)
    (student_id course_id : String) : EnrollmentController × String :=
  match ctrl.enrollment_service.enroll student_id course_id with
  | (svc, .ok _) =>
      (⟨svc⟩, "SUCCESS: Student " ++ student_id ++ " enrolled in course " ++ course_id)
  | (svc, .error e) => (⟨svc⟩, "ERROR: " ++ e.message)

/-- Embeds `EnrollmentController.get_student_gpa`: try/except around
`service.calculate_gpa`, formatting the GPA to two decimal places. -/
def EnrollmentController.get_student_gpa (ctrl : EnrollmentController)
    (student_id : String) : EnrollmentController × String :=
  match ctrl.enrollment_service.calculate_gpa student_id with
  | (svc, .ok gpa) =>
      (⟨svc⟩, "GPA for student " ++ student_id ++ ": " ++ formatFixed2 gpa)
  | (svc, .error e) => (⟨svc⟩, "ERROR: " ++ e.message)

/-- Specification-side view of the GPA loop: the `(grade, credits)` pairs of
exactly those enrollments whose course lookup succeeds, in order. -/
def foundEntries (svc : EnrollmentService) (es : List Enrollment) : List (ℚ × Int) :=
  es.filterMap fun e =>
    (svc.course_repository.find_by_id e.course_id).map fun c => (e.grade, c.credits)

/-- Computes `sum(grade_i * credits_i)` over found courses. -/
def gradePoints (l : List (ℚ × Int)) : ℚ :=
  (l.map fun p => p.1 * (p.2 : ℚ)).sum

/-- Computes `sum(credits_i)` over found courses. -/
def creditSum (l : List (ℚ × Int)) : Int :=
  (l.map Prod.snd).sum

/-- Concrete student used to exercise the theorems on explicit states. -/
def studentW : Student :=
  { id := "s1", name := "Alice", email := "alice@example.com",
    current_credits := 0, max_credits := 10 }

/-- Concrete student sitting close to the credit limit. -/
def studentNear : Student :=
  { id := "s2", name := "Bob", email := "bob@example.com",
    current_credits := 8, max_credits := 10 }

/-- Concrete three-credit course. -/
def course1 : Course := { id := "c1", name := "Math", credits := 3 }

/-- Concrete four-credit course. -/
def course2 : Course := { id := "c2", name := "Physics", credits := 4 }

/-- Concrete second three-credit course. -/
def course3 : Course := { id := "c3", name := "Chemistry", credits := 3 }

/-- Service state with two students, three courses, no enrollments. -/
def svcW : EnrollmentService :=
  { student_repository := ⟨[("s1", studentW), ("s2", studentNear)]⟩,
    course_repository := ⟨[("c1", course1), ("c2", course2), ("c3", course3)]⟩,
    enrollment_repository := ⟨[]⟩ }

/-- Graded enrollment: 4.0 in the three-credit course. -/
def enr1 : Enrollment := { student_id := "s1", course_id := "c1", grade := 4 }

/-- Graded enrollment: 3.5 in the four-credit course. -/
def enr2 : Enrollment := { student_id := "s1", course_id := "c2", grade := 7 / 2 }

/-- Graded enrollment: 3.0 in the second three-credit course. -/
def enr3 : Enrollment := { student_id := "s1", course_id := "c3", grade := 3 }

/-- Service state realising the worked GPA example of the spec. -/
def svcG : EnrollmentService :=
  { student_repository := ⟨[("s1", studentW)]⟩,
    course_repository := ⟨[("c1", course1), ("c2", course2), ("c3", course3)]⟩,
    enrollment_repository := ⟨[enr1, enr2, enr3]⟩ }

/-- Service state whose single enrollment references a missing course. -/
def svcOrphan : EnrollmentService :=
  { student_repository := ⟨[("s1", studentW)]⟩,
    course_repository := ⟨[]⟩,
    enrollment_repository := ⟨[{ student_id := "s1", course_id := "cGone", grade := 4 }]⟩ }

/-- Service state where student s1 is already enrolled in course c1. -/
def svcDup : EnrollmentService :=
  { student_repository := ⟨[("s1", studentW)]⟩,
    course_repository := ⟨[("c1", course1), ("c2", course2), ("c3", course3)]⟩,
    enrollment_repository := ⟨[Enrollment.create "s1" "c1"]⟩ }

/-- Controller over the populated service state. -/
def ctrlOK : EnrollmentController := ⟨svcW⟩

/-- Controller over an entirely empty service state. -/
def ctrlMissing : EnrollmentController := ⟨⟨⟨[]⟩, ⟨[]⟩, ⟨[]⟩⟩⟩

/-- Lookup after an upsert: the upserted key now maps to the new value,
every other key is untouched. -/
theorem findEntry_upsert (l : List (String × α)) (k k' : String) (v : α) :
    findEntry k' (upsert l k v) = if k' = k then some v else findEntry k' l := by
  induction l with
  | nil =>
    by_cases h : k' = k
    · subst h; simp [upsert, findEntry]
    · have h' : ¬ (k = k') := fun hc => h hc.symm
      simp [upsert, findEntry, h, h']
  | cons p t ih =>
    obtain ⟨k₀, v₀⟩ := p
    by_cases h1 : k₀ = k
    · subst h1
      by_cases h2 : k₀ = k'
      · subst h2
        simp [upsert, findEntry]
      · have h2' : ¬ (k' = k₀) := fun hc => h2 hc.symm
        simp [upsert, findEntry, h2, h2']
    · by_cases h2 : k₀ = k'
      · subst h2
        simp [upsert, findEntry, h1]
      · simp [upsert, findEntry, h1, h2, ih]

/-- The GPA computation never touches the service state. -/
theorem calculate_gpa_fst (svc : EnrollmentService) (sid : String) :
    (svc.calculate_gpa sid).1 = svc := by
  unfold EnrollmentService.calculate_gpa
  cases h : svc.student_repository.find_by_id sid with
  | none => rfl
  | some s => simp only []; split <;> rfl

/-- The GPA accumulation loop computes the two sums over exactly the
enrollments whose course is found. -/
theorem foldl_gpaStep (svc : EnrollmentService) (es : List Enrollment) (a : ℚ) (b : Int) :
    es.foldl (gpaStep svc) (a, b)
      = (a + gradePoints (foundEntries svc es), b + creditSum (foundEntries svc es)) := by
  induction es generalizing a b with
  | nil => simp [foundEntries, gradePoints, creditSum]
  | cons e t ih =>
    cases h : svc.course_repository.find_by_id e.course_id with
    | none =>
      simp [gpaStep, h, ih, foundEntries, List.filterMap_cons]
    | some c =>
      simp [gpaStep, h, ih, foundEntries, gradePoints, creditSum, List.filterMap_cons]
      constructor
      · ring
      · omega

/-- Enroll when the student lookup fails: error, state unchanged. -/
theorem enroll_student_missing (svc : EnrollmentService) (sid cid : String)
    (h : svc.student_repository.find_by_id sid = none) :
    svc.enroll sid cid = (svc, .error (.studentNotFound sid)) := by
  unfold EnrollmentService.enroll
  rw [h]

/-- Enroll when the course lookup fails: error, state unchanged. -/
theorem enroll_course_missing (svc : EnrollmentService) (sid cid : String) (S : Student)
    (h1 : svc.student_repository.find_by_id sid = some S)
    (h2 : svc.course_repository.find_by_id cid = none) :
    svc.enroll sid cid = (svc, .error (.courseNotFound cid)) := by
  unfold EnrollmentService.enroll
  rw [h1, h2]

/-- Enroll when the credit limit would be exceeded: error, state unchanged. -/
theorem enroll_limit (svc : EnrollmentService) (sid cid : String) (S : Student) (C : Course)
    (h1 : svc.student_repository.find_by_id sid = some S)
    (h2 : svc.course_repository.find_by_id cid = some C)
    (h3 : S.max_credits < S.current_credits + C.credits) :
    svc.enroll sid cid = (svc, .error .creditLimitExceeded) := by
  unfold EnrollmentService.enroll
  rw [h1, h2]
  simp [h3]

/-- The enroll success path written out as one state equation. -/
theorem enroll_eq_of_found (svc : EnrollmentService) (S : Student) (C : Course)
    (sid cid : String)
    (hS : svc.student_repository.find_by_id sid = some S)
    (hC : svc.course_repository.find_by_id cid = some C)
    (hcred : S.current_credits + C.credits ≤ S.max_credits) :
    svc.enroll sid cid =
      ({ svc with
          enrollment_repository := svc.enrollment_repository.save (Enrollment.create sid cid),
          student_repository := svc.student_repository.save (S.add_credits C.credits) },
       .ok (Enrollment.create sid cid)) := by
  have hng : ¬ (S.current_credits + C.credits > S.max_credits) := not_lt.mpr hcred
  unfold EnrollmentService.enroll
  rw [hS, hC]
  simp [hng]

/-- C1: for every student S and course C present in their repositories with
`S.current_credits + C.credits <= S.max_credits` (equality included),
`enroll(S.id, C.id)` succeeds: it returns a new `Enrollment(S.id, C.id)`
with grade 0.0, appends exactly one such record to the enrollment
repository (where it is retrievable), and increases `S.current_credits` by
exactly `C.credits`. -/
theorem enroll_success (svc : EnrollmentService) (S : Student) (C : Course)
    (hS : svc.student_repository.find_by_id S.id = some S)
    (hC : svc.course_repository.find_by_id C.id = some C)
    (hcred : S.current_credits + C.credits ≤ S.max_credits) :
    (svc.enroll S.id C.id).2 = .ok (Enrollment.create S.id C.id) ∧
    (Enrollment.create S.id C.id).grade = 0 ∧
    (svc.enroll S.id C.id).1.enrollment_repository.enrollments
      = svc.enrollment_repository.enrollments ++ [Enrollment.create S.id C.id] ∧
    ((svc.enroll S.id C.id).1.enrollment_repository.enrollments.countP
        (fun e => e.student_id == S.id && e.course_id == C.id))
      = (svc.enrollment_repository.enrollments.countP
          (fun e => e.student_id == S.id && e.course_id == C.id)) + 1 ∧
    ((svc.enroll S.id C.id).1.enrollment_repository.find_by_student_and_course
        S.id C.id).isSome = true ∧
    (svc.enroll S.id C.id).1.student_repository.find_by_id S.id
      = some (S.add_credits C.credits) ∧
    (S.add_credits C.credits).current_credits = S.current_credits + C.credits := by
  rw [enroll_eq_of_found svc S C S.id C.id hS hC hcred]
  refine ⟨rfl, rfl, rfl, ?_, ?_, ?_, rfl⟩
  · simp [EnrollmentRepository.save, List.countP_append, Enrollment.create, List.countP_cons]
  · rw [Option.isSome_iff_ne_none]
    intro hnone
    have hall := List.find?_eq_none.mp hnone (Enrollment.create S.id C.id) (by
      show Enrollment.create S.id C.id ∈
        (svc.enrollment_repository.save (Enrollment.create S.id C.id)).enrollments
      simp [EnrollmentRepository.save])
    simp [Enrollment.create] at hall
  · show findEntry S.id (upsert svc.student_repository.students
      (S.add_credits C.credits).id (S.add_credits C.credits)) = _
    have hid : (S.add_credits C.credits).id = S.id := rfl
    rw [hid, findEntry_upsert]
    simp

/-- Witness for C1: in the concrete state `svcW`, enrolling s1 (0 of 10
credits) in the three-credit course c1 succeeds with all the stated
effects. -/
theorem enroll_success_witness :
    (svcW.enroll studentW.id course1.id).2 = .ok (Enrollment.create studentW.id course1.id) ∧
    (Enrollment.create studentW.id course1.id).grade = 0 ∧
    (svcW.enroll studentW.id course1.id).1.enrollment_repository.enrollments
      = svcW.enrollment_repository.enrollments ++ [Enrollment.create studentW.id course1.id] ∧
    ((svcW.enroll studentW.id course1.id).1.enrollment_repository.enrollments.countP
        (fun e => e.student_id == studentW.id && e.course_id == course1.id))
      = (svcW.enrollment_repository.enrollments.countP
          (fun e => e.student_id == studentW.id && e.course_id == course1.id)) + 1 ∧
    ((svcW.enroll studentW.id course1.id).1.enrollment_repository.find_by_student_and_course
        studentW.id course1.id).isSome = true ∧
    (svcW.enroll studentW.id course1.id).1.student_repository.find_by_id studentW.id
      = some (studentW.add_credits course1.credits) ∧
    (studentW.add_credits course1.credits).current_credits
      = studentW.current_credits + course1.credits :=
  enroll_success svcW studentW course1 rfl rfl (by decide)

/-- C2: for every student S and course C present in their repositories with
`S.current_credits + C.credits > S.max_credits`, `enroll(S.id, C.id)` fails
with CreditLimitExceeded and leaves the whole service state — all three
repositories — unchanged. -/
theorem enroll_credit_limit (svc : EnrollmentService) (S : Student) (C : Course)
    (hS : svc.student_repository.find_by_id S.id = some S)
    (hC : svc.course_repository.find_by_id C.id = some C)
    (hcred : S.max_credits < S.current_credits + C.credits) :
    svc.enroll S.id C.id = (svc, .error .creditLimitExceeded) :=
  enroll_limit svc S.id C.id S C hS hC hcred

/-- Witness for C2: s2 has 8 of 10 credits; the four-credit course c2 would
exceed the limit, so enrolling fails and the state is unchanged. -/
theorem enroll_credit_limit_witness :
    svcW.enroll studentNear.id course2.id = (svcW, .error .creditLimitExceeded) :=
  enroll_credit_limit svcW studentNear course2 rfl rfl (by decide)

/-- C3: enroll validates in strict order and stops at the first failure: an
absent student identifier fails with NotFound(student) citing it, before
any course lookup matters; a present student with an absent course
identifier fails with NotFound(course) citing it; both failures leave the
state unchanged. -/
theorem enroll_not_found (svc : EnrollmentService) (sid cid : String) :
    (svc.student_repository.find_by_id sid = none →
      svc.enroll sid cid = (svc, .error (.studentNotFound sid))) ∧
    (∀ S, svc.student_repository.find_by_id sid = some S →
      svc.course_repository.find_by_id cid = none →
      svc.enroll sid cid = (svc, .error (.courseNotFound cid))) :=
  ⟨fun h => enroll_student_missing svc sid cid h,
   fun S h1 h2 => enroll_course_missing svc sid cid S h1 h2⟩

/-- Witness for C3: unknown student sX fails with NotFound(student) even
though course c1 exists; known student s1 with unknown course cX fails
with NotFound(course); the state is unchanged both times. -/
theorem enroll_not_found_witness :
    svcW.enroll "sX" "c1" = (svcW, .error (.studentNotFound "sX")) ∧
    svcW.enroll "s1" "cX" = (svcW, .error (.courseNotFound "cX")) :=
  ⟨(enroll_not_found svcW "sX" "c1").1 rfl,
   (enroll_not_found svcW "s1" "cX").2 studentW rfl rfl⟩

/-- C4: for every existing student with at least one enrollment whose course
exists (courses carrying the positive credit weights the data model
requires), `calculate_gpa` returns `sum(grade_i * credits_i) /
sum(credits_i)` where both sums range exactly over the student's
enrollments whose referenced course is found; an enrollment whose course is
missing contributes to neither sum and raises no error. -/
theorem calculate_gpa_weighted (svc : EnrollmentService) (S : Student)
    (hS : svc.student_repository.find_by_id S.id = some S)
    (hne : foundEntries svc (svc.enrollment_repository.find_by_student_id S.id) ≠ [])
    (hpos : ∀ p ∈ foundEntries svc (svc.enrollment_repository.find_by_student_id S.id),
      0 < p.2) :
    (svc.calculate_gpa S.id).2 =
      .ok (gradePoints (foundEntries svc (svc.enrollment_repository.find_by_student_id S.id)) /
        ((creditSum (foundEntries svc (svc.enrollment_repository.find_by_student_id S.id)) : Int) : ℚ)) := by
  set es := svc.enrollment_repository.find_by_student_id S.id with hes
  have hsum : 0 < creditSum (foundEntries svc es) := by
    apply List.sum_pos
    · intro x hx
      obtain ⟨p, hp, hpx⟩ := List.mem_map.mp hx
      exact hpx ▸ hpos p hp
    · simpa using hne
  have hesne : es ≠ [] := by
    intro h
    exact hne (by rw [h]; rfl)
  have hemp : es.isEmpty = false := by
    simpa [List.isEmpty_iff] using hesne
  unfold EnrollmentService.calculate_gpa
  rw [hS]
  simp only [← hes, hemp, Bool.false_eq_true, if_false, foldl_gpaStep, zero_add]
  rw [if_pos hsum]

/-- Witness for C4: the spec's worked example — grades 4.0, 3.5, 3.0 with
credits 3, 4, 3 — yields GPA (12+14+9)/10 = 3.5. -/
theorem calculate_gpa_weighted_witness :
    (svcG.calculate_gpa studentW.id).2 = .ok (7 / 2) := by
  have h := calculate_gpa_weighted svcG studentW rfl (by decide) (by decide)
  have hf : foundEntries svcG (svcG.enrollment_repository.find_by_student_id studentW.id)
      = [(4, 3), (7 / 2, 4), (3, 3)] := rfl
  rw [h, hf]
  congr 1
  norm_num [gradePoints, creditSum]

/-- C5: for every student record satisfying `current_credits <= max_credits`
before an engine operation, the record found under the same key after any
enroll or calculate_gpa call (successful or failed) still satisfies it: the
engine never pushes current credits above the maximum. -/
theorem credit_invariant_preserved (svc : EnrollmentService) (k : String)
    (S : Student)
    (hbefore : svc.student_repository.find_by_id k = some S)
    (hinv : S.current_credits ≤ S.max_credits) :
    (∀ sid cid S', (svc.enroll sid cid).1.student_repository.find_by_id k = some S' →
      S'.current_credits ≤ S'.max_credits) ∧
    (∀ sid S', (svc.calculate_gpa sid).1.student_repository.find_by_id k = some S' →
      S'.current_credits ≤ S'.max_credits) := by
  constructor
  · intro sid cid S' hafter
    cases h1 : svc.student_repository.find_by_id sid with
    | none =>
      rw [enroll_student_missing svc sid cid h1] at hafter
      rw [hbefore] at hafter
      obtain rfl : S = S' := by injection hafter
      exact hinv
    | some student =>
      cases h2 : svc.course_repository.find_by_id cid with
      | none =>
        rw [enroll_course_missing svc sid cid student h1 h2] at hafter
        rw [hbefore] at hafter
        obtain rfl : S = S' := by injection hafter
        exact hinv
      | some course =>
        by_cases h3 : student.current_credits + course.credits > student.max_credits
        · rw [enroll_limit svc sid cid student course h1 h2 h3] at hafter
          rw [hbefore] at hafter
          obtain rfl : S = S' := by injection hafter
          exact hinv
        · rw [enroll_eq_of_found svc student course sid cid h1 h2 (not_lt.mp h3)] at hafter
          have hafter' : findEntry k (upsert svc.student_repository.students
              (student.add_credits course.credits).id (student.add_credits course.credits))
              = some S' := hafter
          rw [findEntry_upsert] at hafter'
          by_cases hk : k = (student.add_credits course.credits).id
          · rw [if_pos hk] at hafter'
            obtain rfl : student.add_credits course.credits = S' := by injection hafter'
            have hle : student.current_credits + course.credits ≤ student.max_credits :=
              not_lt.mp h3
            simpa [Student.add_credits] using hle
          · rw [if_neg hk] at hafter'
            have hsame : svc.student_repository.find_by_id k = some S' := hafter'
            rw [hbefore] at hsame
            obtain rfl : S = S' := by injection hsame
            exact hinv
  · intro sid S' hafter
    rw [calculate_gpa_fst] at hafter
    rw [hbefore] at hafter
    obtain rfl : S = S' := by injection hafter
    exact hinv

/-- Witness for C5: s1 satisfies the invariant in `svcW`; after the
successful enroll of s1 in c1 the stored record (3 of 10 credits) still
satisfies it, and after a `calculate_gpa` call the untouched record does
too. -/
theorem credit_invariant_preserved_witness :
    (studentW.add_credits course1.credits).current_credits
      ≤ (studentW.add_credits course1.credits).max_credits ∧
    studentW.current_credits ≤ studentW.max_credits :=
  ⟨(credit_invariant_preserved svcW "s1" studentW rfl (by decide)).1 "s1" "c1"
      (studentW.add_credits course1.credits) (by decide),
   (credit_invariant_preserved svcW "s1" studentW rfl (by decide)).2 "s1"
      studentW (by decide)⟩

/-- C6: for every existing student, `calculate_gpa` returns exactly 0.0 and
does not fail when the student's enrollment set is empty, and likewise
returns 0.0 when the accumulated credit sum over found courses is zero
(e.g. every enrollment's course is missing). -/
theorem calculate_gpa_zero (svc : EnrollmentService) (S : Student)
    (hS : svc.student_repository.find_by_id S.id = some S) :
    (svc.enrollment_repository.find_by_student_id S.id = [] →
      (svc.calculate_gpa S.id).2 = .ok 0) ∧
    (creditSum (foundEntries svc (svc.enrollment_repository.find_by_student_id S.id)) = 0 →
      (svc.calculate_gpa S.id).2 = .ok 0) := by
  constructor
  · intro h
    unfold EnrollmentService.calculate_gpa
    rw [hS]
    simp [h]
  · intro h
    by_cases hesn : svc.enrollment_repository.find_by_student_id S.id = []
    · unfold EnrollmentService.calculate_gpa
      rw [hS]
      simp [hesn]
    · have hemp : (svc.enrollment_repository.find_by_student_id S.id).isEmpty = false := by
        simpa [List.isEmpty_iff] using hesn
      unfold EnrollmentService.calculate_gpa
      rw [hS]
      simp only [hemp, Bool.false_eq_true, if_false, foldl_gpaStep, zero_add, h]
      rfl

/-- Witness for C6: s1 has no enrollments in `svcW`, so the GPA is 0.0; in
`svcOrphan` the single enrollment's course is missing, the credit sum is 0,
and the GPA is again 0.0. -/
theorem calculate_gpa_zero_witness :
    (svcW.calculate_gpa studentW.id).2 = .ok 0 ∧
    (svcOrphan.calculate_gpa studentW.id).2 = .ok 0 :=
  ⟨(calculate_gpa_zero svcW studentW rfl).1 rfl,
   (calculate_gpa_zero svcOrphan studentW rfl).2 (by decide)⟩

/-- C7: for every identifier absent from the student store, `calculate_gpa`
fails with NotFound(student) citing that identifier, leaving the state
unchanged. -/
theorem calculate_gpa_not_found (svc : EnrollmentService) (sid : String)
    (h : svc.student_repository.find_by_id sid = none) :
    svc.calculate_gpa sid = (svc, .error (.studentNotFound sid)) := by
  unfold EnrollmentService.calculate_gpa
  rw [h]

/-- Witness for C7: sX is not a known student, so its GPA request fails
with NotFound(student) citing sX. -/
theorem calculate_gpa_not_found_witness :
    svcW.calculate_gpa "sX" = (svcW, .error (.studentNotFound "sX")) :=
  calculate_gpa_not_found svcW "sX" rfl

/-- C8: for every pair of identifiers, the controller's `enroll_student`
returns a string beginning with SUCCESS containing both identifiers when
the engine succeeds, and otherwise a string beginning with ERROR containing
the failure's message; `get_student_gpa` returns a string containing the
text `GPA for student <id>:` followed by the GPA formatted to two decimal
places, or an ERROR string when the engine fails; every engine failure is
caught and stringified (the match below is total over the engine's
outcomes), never propagated. -/
theorem controller_formats (ctrl : EnrollmentController) (sid cid : String) :
    (∀ en, (ctrl.enrollment_service.enroll sid cid).2 = .ok en →
      (ctrl.enroll_student sid cid).2
          = "SUCCESS: Student " ++ sid ++ " enrolled in course " ++ cid ∧
        ∃ t, (ctrl.enroll_student sid cid).2 = "SUCCESS" ++ t) ∧
    (∀ err, (ctrl.enrollment_service.enroll sid cid).2 = .error err →
      (ctrl.enroll_student sid cid).2 = "ERROR: " ++ err.message ∧
        ∃ t, (ctrl.enroll_student sid cid).2 = "ERROR" ++ t) ∧
    (∀ g, (ctrl.enrollment_service.calculate_gpa sid).2 = .ok g →
      (ctrl.get_student_gpa sid).2
          = "GPA for student " ++ sid ++ ": " ++ formatFixed2 g ∧
        ∃ u, (ctrl.get_student_gpa sid).2 = ("GPA for student " ++ sid ++ ":") ++ u) ∧
    (∀ err, (ctrl.enrollment_service.calculate_gpa sid).2 = .error err →
      (ctrl.get_student_gpa sid).2 = "ERROR: " ++ err.message ∧
        ∃ t, (ctrl.get_student_gpa sid).2 = "ERROR" ++ t) := by
  refine ⟨?_, ?_, ?_, ?_⟩
  · intro en h
    cases hp : ctrl.enrollment_service.enroll sid cid with
    | mk svcE rE =>
      rw [hp] at h
      have hout : (ctrl.enroll_student sid cid).2
          = "SUCCESS: Student " ++ sid ++ " enrolled in course " ++ cid := by
        unfold EnrollmentController.enroll_student
        rw [hp]
        have h2 : rE = .ok en := h
        rw [h2]
      refine ⟨hout, ⟨": Student " ++ (sid ++ (" enrolled in course " ++ cid)), ?_⟩⟩
      rw [hout]
      rw [← String.append_assoc, ← String.append_assoc, ← String.append_assoc]
      rfl
  · intro err h
    cases hp : ctrl.enrollment_service.enroll sid cid with
    | mk svcE rE =>
      rw [hp] at h
      have hout : (ctrl.enroll_student sid cid).2 = "ERROR: " ++ err.message := by
        unfold EnrollmentController.enroll_student
        rw [hp]
        have h2 : rE = .error err := h
        rw [h2]
      refine ⟨hout, ⟨": " ++ err.message, ?_⟩⟩
      rw [hout, ← String.append_assoc]
      rfl
  · intro g h
    cases hp : ctrl.enrollment_service.calculate_gpa sid with
    | mk svcE rE =>
      rw [hp] at h
      have hout : (ctrl.get_student_gpa sid).2
          = "GPA for student " ++ sid ++ ": " ++ formatFixed2 g := by
        unfold EnrollmentController.get_student_gpa
        rw [hp]
        have h2 : rE = .ok g := h
        rw [h2]
      refine ⟨hout, ⟨" " ++ formatFixed2 g, ?_⟩⟩
      rw [hout]
      simp only [String.append_assoc]
      congr 1
  · intro err h
    cases hp : ctrl.enrollment_service.calculate_gpa sid with
    | mk svcE rE =>
      rw [hp] at h
      have hout : (ctrl.get_student_gpa sid).2 = "ERROR: " ++ err.message := by
        unfold EnrollmentController.get_student_gpa
        rw [hp]
        have h2 : rE = .error err := h
        rw [h2]
      refine ⟨hout, ⟨": " ++ err.message, ?_⟩⟩
      rw [hout, ← String.append_assoc]
      rfl

/-- Witness for C8: concrete strings for all four paths — a successful
enroll, a failed enroll, a successful GPA request (formatted to two decimal
places), and a failed GPA request. -/
theorem controller_formats_witness :
    (ctrlOK.enroll_student "s1" "c1").2
        = "SUCCESS: Student " ++ "s1" ++ " enrolled in course " ++ "c1" ∧
    (ctrlMissing.enroll_student "sX" "c1").2
        = "ERROR: " ++ (ServiceError.studentNotFound "sX").message ∧
    (ctrlOK.get_student_gpa "s1").2
        = "GPA for student " ++ "s1" ++ ": " ++ formatFixed2 0 ∧
    (ctrlMissing.get_student_gpa "sX").2
        = "ERROR: " ++ (ServiceError.studentNotFound "sX").message :=
  ⟨((controller_formats ctrlOK "s1" "c1").1 (Enrollment.create "s1" "c1") rfl).1,
   ((controller_formats ctrlMissing "sX" "c1").2.1 (ServiceError.studentNotFound "sX") rfl).1,
   ((controller_formats ctrlOK "s1" "c1").2.2.1 0 rfl).1,
   ((controller_formats ctrlMissing "sX" "c1").2.2.2 (ServiceError.studentNotFound "sX") rfl).1⟩

/-- C9 (implicit): enroll performs no duplicate check — when the student is
already enrolled in the course and the credit limit still allows it, a
second enroll for the same pair succeeds, appends a second record for the
pair, and adds the course's credits to the student a second time. -/
theorem enroll_no_duplicate_check (svc : EnrollmentService) (S : Student) (C : Course)
    (E0 : Enrollment)
    (hS : svc.student_repository.find_by_id S.id = some S)
    (hC : svc.course_repository.find_by_id C.id = some C)
    (hdup : svc.enrollment_repository.find_by_student_and_course S.id C.id = some E0)
    (hcred : S.current_credits + C.credits ≤ S.max_credits) :
    (svc.enroll S.id C.id).2 = .ok (Enrollment.create S.id C.id) ∧
    (svc.enroll S.id C.id).1.enrollment_repository.enrollments
      = svc.enrollment_repository.enrollments ++ [Enrollment.create S.id C.id] ∧
    ((svc.enroll S.id C.id).1.enrollment_repository.enrollments.countP
        (fun e => e.student_id == S.id && e.course_id == C.id))
      = (svc.enrollment_repository.enrollments.countP
          (fun e => e.student_id == S.id && e.course_id == C.id)) + 1 ∧
    2 ≤ ((svc.enroll S.id C.id).1.enrollment_repository.enrollments.countP
        (fun e => e.student_id == S.id && e.course_id == C.id)) ∧
    (svc.enroll S.id C.id).1.student_repository.find_by_id S.id
      = some (S.add_credits C.credits) ∧
    (S.add_credits C.credits).current_credits = S.current_credits + C.credits := by
  have hcount1 : 1 ≤ svc.enrollment_repository.enrollments.countP
      (fun e => e.student_id == S.id && e.course_id == C.id) := by
    have hmem := List.mem_of_find?_eq_some hdup
    have hpred := List.find?_some hdup
    exact List.countP_pos_iff.mpr ⟨E0, hmem, hpred⟩
  have hkey : ((svc.enrollment_repository.save (Enrollment.create S.id C.id)).enrollments.countP
      (fun e => e.student_id == S.id && e.course_id == C.id))
      = svc.enrollment_repository.enrollments.countP
          (fun e => e.student_id == S.id && e.course_id == C.id) + 1 := by
    simp [EnrollmentRepository.save, List.countP_append, Enrollment.create, List.countP_cons]
  rw [enroll_eq_of_found svc S C S.id C.id hS hC hcred]
  refine ⟨rfl, rfl, hkey, le_trans (by omega) (le_of_eq hkey.symm), ?_, rfl⟩
  show findEntry S.id (upsert svc.student_repository.students
      (S.add_credits C.credits).id (S.add_credits C.credits)) = _
  have hid : (S.add_credits C.credits).id = S.id := rfl
  rw [hid, findEntry_upsert]
  simp

/-- Witness for C9: in `svcDup`, s1 is already enrolled in c1 (3 credits,
limit 10); enrolling again succeeds, the pair's record count reaches 2, and
the student's credits grow by another 3. -/
theorem enroll_no_duplicate_check_witness :
    (svcDup.enroll studentW.id course1.id).2 = .ok (Enrollment.create studentW.id course1.id) ∧
    (svcDup.enroll studentW.id course1.id).1.enrollment_repository.enrollments
      = svcDup.enrollment_repository.enrollments ++ [Enrollment.create studentW.id course1.id] ∧
    ((svcDup.enroll studentW.id course1.id).1.enrollment_repository.enrollments.countP
        (fun e => e.student_id == studentW.id && e.course_id == course1.id))
      = (svcDup.enrollment_repository.enrollments.countP
          (fun e => e.student_id == studentW.id && e.course_id == course1.id)) + 1 ∧
    2 ≤ ((svcDup.enroll studentW.id course1.id).1.enrollment_repository.enrollments.countP
        (fun e => e.student_id == studentW.id && e.course_id == course1.id)) ∧
    (svcDup.enroll studentW.id course1.id).1.student_repository.find_by_id studentW.id
      = some (studentW.add_credits course1.credits) ∧
    (studentW.add_credits course1.credits).current_credits
      = studentW.current_credits + course1.credits :=
  enroll_no_duplicate_check svcDup studentW course1 (Enrollment.create "s1" "c1")
    rfl rfl (by decide) (by decide)

/-- C10 (implicit): `calculate_gpa` is read-only — after any call,
successful or failed, the service state and each of the three repositories
are exactly as they were before. -/
theorem calculate_gpa_readonly (svc : EnrollmentService) (sid : String) :
    (svc.calculate_gpa sid).1 = svc ∧
    (svc.calculate_gpa sid).1.student_repository = svc.student_repository ∧
    (svc.calculate_gpa sid).1.course_repository = svc.course_repository ∧
    (svc.calculate_gpa sid).1.enrollment_repository = svc.enrollment_repository := by
  rw [calculate_gpa_fst]
  exact ⟨rfl, rfl, rfl, rfl⟩
